import Mathlib

/-!
# Verification of the Ragwalla agents SDK real-time connection client

This file is a shallow embedding, in Lean 4, of the real-time WebSocket
connection client of the `ragwalla-agents-sdk-typescript` repository
(`RagwallaWebSocket`, the superset implementation that carries
continuation-mode and thread-history support; the narrower build-target
duplicate `src/client/websocket-client.ts` is byte-identical on every
function modelled here).

Modelling conventions:
* JavaScript runtime values exchanged over the wire or passed to event
  listeners are embedded as the inductive `JsVal` (JSON values extended
  with `undefined`).
* JavaScript exceptions become `Except String`; a `throw` in the source is
  an `.error` value of the embedded function.
* Machine-visible side effects (transport writes, event emissions,
  scheduled timers) are returned explicitly as lists/options.
* Environment builtins are embedded, not stubbed: `JSON.stringify` is
  `stringifyVal`, `Date.prototype.toISOString` is `toISOString` (valid for
  the four-digit-year range 1970..9999 that the claims exercise),
  `URLSearchParams.toString` is `serializeParams`.  `JSON.parse` is the
  one boundary that is abstracted: a handler that parses inbound text
  receives the parse outcome as an `Option JsVal` argument (`none` models
  a `JSON.parse` throw on invalid JSON).
-/

/-- A JavaScript runtime value: JSON values extended with `undefined`
(property access on an object that lacks the key yields `undefined`). -/
inductive JsVal where
  | jundefined : JsVal
  | jsnull : JsVal
  | jbool : Bool → JsVal
  | jnum : Int → JsVal
  | jstr : String → JsVal
  | jarr : List JsVal → JsVal
  | jobj : List (String × JsVal) → JsVal

/-- JavaScript property access `v[key]` for the values this client meets:
field lookup on an object, `undefined` for a missing key or a non-object.
(Parsed wire objects are modelled with distinct keys, so first-match
lookup agrees with JavaScript's last-write-wins object construction.) -/
def jget (v : JsVal) (key : String) : JsVal :=
  match v with
  | .jobj fields =>
    match fields.lookup key with
    | some x => x
    | none => .jundefined
  | _ => .jundefined

/-- JavaScript truthiness: `undefined`, `null`, `false`, `0` and `""` are
falsy; every object and array is truthy. -/
def jsTruthy : JsVal → Bool
  | .jundefined => false
  | .jsnull => false
  | .jbool b => b
  | .jnum n => !(n == 0)
  | .jstr s => !(s == "")
  | .jarr _ => true
  | .jobj _ => true

/-- The keys of an object value (used to state top-level envelope shape). -/
def jobjKeys : JsVal → List String
  | .jobj fields => fields.map Prod.fst
  | _ => []

/-- Lower-case hexadecimal digit, as `JSON.stringify` produces in
`\u00XX` escapes. -/
def hexDigitLower (n : Nat) : Char :=
  Char.ofNat (if n < 10 then 48 + n else 87 + (n - 10))

/-- Escaping of one character inside a JSON string literal, following
`JSON.stringify`: quote, backslash, the named control escapes, and
`\u00XX` for the remaining control characters. -/
def escapeJSONChar (c : Char) : String :=
  if c = '"' then "\\\""
  else if c = '\\' then "\\\\"
  else if c = Char.ofNat 8 then "\\b"
  else if c = Char.ofNat 9 then "\\t"
  else if c = Char.ofNat 10 then "\\n"
  else if c = Char.ofNat 12 then "\\f"
  else if c = Char.ofNat 13 then "\\r"
  else if c.toNat < 32 then
    "\\u00" ++ String.mk [hexDigitLower (c.toNat / 16), hexDigitLower (c.toNat % 16)]
  else String.mk [c]

/-- A JSON string literal: quotes around the escaped characters. -/
def quoteJSON (s : String) : String :=
  "\"" ++ String.join (s.toList.map escapeJSONChar) ++ "\""

mutual

/-- `JSON.stringify` on a JavaScript value.  As in JavaScript, an
`undefined` object member is omitted and an `undefined` array element
serializes as `null`. -/
def stringifyVal : JsVal → String
  | .jundefined => "null"
  | .jsnull => "null"
  | .jbool b => if b then "true" else "false"
  | .jnum n => toString n
  | .jstr s => quoteJSON s
  | .jarr xs => "[" ++ String.intercalate "," (stringifyElems xs) ++ "]"
  | .jobj fields => "\x7b" ++ String.intercalate "," (stringifyMembers fields) ++ "\x7d"

/-- Serialized array elements, in order. -/
def stringifyElems : List JsVal → List String
  | [] => []
  | x :: rest => stringifyVal x :: stringifyElems rest

/-- Serialized object members, in order, with `undefined`-valued members
omitted as `JSON.stringify` does. -/
def stringifyMembers : List (String × JsVal) → List String
  | [] => []
  | (k, v) :: rest =>
    match v with
    | .jundefined => stringifyMembers rest
    | v => (quoteJSON k ++ ":" ++ stringifyVal v) :: stringifyMembers rest

end

/-! ## `Date.prototype.toISOString`

The source stamps outbound conversational envelopes with
`new Date().toISOString()`.  The clock is an environment input, so the
embedded operations take the current time as epoch milliseconds and the
formatter below reproduces the ECMAScript `toISOString` output
`YYYY-MM-DDTHH:mm:ss.sssZ` for the four-digit-year range (1970..9999). -/

/-- The decimal digit character for `n % 10`. -/
def digitChar10 (n : Nat) : Char := Char.ofNat (48 + n % 10)

/-- Two-digit zero-padded decimal field. -/
def pad2 (n : Nat) : List Char := [digitChar10 (n / 10), digitChar10 n]

/-- Three-digit zero-padded decimal field. -/
def pad3 (n : Nat) : List Char := [digitChar10 (n / 100), digitChar10 (n / 10), digitChar10 n]

/-- Four-digit zero-padded decimal field. -/
def pad4 (n : Nat) : List Char :=
  [digitChar10 (n / 1000), digitChar10 (n / 100), digitChar10 (n / 10), digitChar10 n]

/-- Proleptic-Gregorian civil date from days since the Unix epoch
(the standard era-based conversion used to model the ECMAScript date
algorithm for non-negative epoch times). -/
def civilFromDays (days : Nat) : Nat × Nat × Nat :=
  let z := days + 719468
  let era := z / 146097
  let doe := z % 146097
  let yoe := (doe - doe / 1460 + doe / 36524 - doe / 146096) / 365
  let y := yoe + era * 400
  let doy := doe - (365 * yoe + yoe / 4 - yoe / 100)
  let mp := (5 * doy + 2) / 153
  let d := doy - (153 * mp + 2) / 5 + 1
  let m := if mp < 10 then mp + 3 else mp - 9
  (if m ≤ 2 then y + 1 else y, m, d)

/-- The character list of the ISO-8601 timestamp for an epoch time in
milliseconds. -/
def toISOStringChars (t : Nat) : List Char :=
  let ms := t % 1000
  let s := t / 1000 % 60
  let mi := t / 60000 % 60
  let h := t / 3600000 % 24
  let ymd := civilFromDays (t / 86400000)
  pad4 ymd.1 ++ '-' :: pad2 ymd.2.1 ++ '-' :: pad2 ymd.2.2 ++
    'T' :: pad2 h ++ ':' :: pad2 mi ++ ':' :: pad2 s ++ '.' :: pad3 ms ++ ['Z']

/-- `new Date(t).toISOString()` for epoch milliseconds `t`. -/
def toISOString (t : Nat) : String := String.mk (toISOStringChars t)

/-- Recognizer for the 24-character ISO-8601 shape
`YYYY-MM-DDTHH:mm:ss.sssZ` produced by `toISOString`. -/
def isISO8601 (str : String) : Bool :=
  match str.toList with
  | [y1, y2, y3, y4, h1, m1, m2, h2, d1, d2, tt, hh1, hh2, c1, mi1, mi2, c2,
      s1, s2, dot, ms1, ms2, ms3, z] =>
    y1.isDigit && y2.isDigit && y3.isDigit && y4.isDigit && (h1 == '-') &&
    m1.isDigit && m2.isDigit && (h2 == '-') && d1.isDigit && d2.isDigit &&
    (tt == 'T') && hh1.isDigit && hh2.isDigit && (c1 == ':') &&
    mi1.isDigit && mi2.isDigit && (c2 == ':') && s1.isDigit && s2.isDigit &&
    (dot == '.') && ms1.isDigit && ms2.isDigit && ms3.isDigit && (z == 'Z')
  | _ => false

theorem digitChar10_isDigit (n : Nat) : (digitChar10 n).isDigit = true := by
  have h : n % 10 < 10 := Nat.mod_lt _ (by decide)
  have : ∀ k, k < 10 → (Char.ofNat (48 + k)).isDigit = true := by decide
  exact this (n % 10) h

theorem toISOString_isISO8601 (t : Nat) : isISO8601 (toISOString t) = true := by
  simp only [toISOString, toISOStringChars, pad4, pad3, pad2, isISO8601, String.toList]
  simp [digitChar10_isDigit]

/-! ## Session state, configuration and endpoint validation -/

/-- The mutable fields of a `RagwallaWebSocket` instance.  The transport
handle `this.ws` is modelled by its ready state: `none` when `this.ws`
is `null`, `some rs` when a handle with `readyState = rs` is held
(`1` is `OPEN`). -/
structure SessionState where
  ws : Option Int
  baseURL : String
  reconnectAttempts : Int
  reconnectDelay : Int
  currentAttempts : Int
  isManuallyDisconnected : Bool
  debug : Bool
  continuationMode : String
deriving Repr, DecidableEq

/-- The `WebSocketConfig` constructor argument; optional fields are
`none` when the caller omits them. -/
structure WebSocketConfig where
  baseURL : String
  reconnectAttempts : Option Int := none
  reconnectDelay : Option Int := none
  debug : Option Bool := none
  continuationMode : Option String := none

/-- `config.x || default` for a number-valued option: `undefined` and the
falsy number `0` both select the default. -/
def jsOrInt (v : Option Int) (d : Int) : Int :=
  match v with
  | some n => if n = 0 then d else n
  | none => d

/-- `config.debug || false`. -/
def jsOrBool (v : Option Bool) : Bool :=
  match v with
  | some b => b
  | none => false

/-- `[a-zA-Z0-9-]`, the character class of the endpoint label. -/
def isAlnumDash (c : Char) : Bool :=
  c.isAlpha || c.isDigit || c == '-'

/-- The endpoint pattern `^wss:\/\/[a-zA-Z0-9-]+\.ai\.ragwalla\.com\/v1\/?$`.
Because `.` is outside the label class, the regex's greedy match of the
label coincides with maximal munch, so `takeWhile`/`dropWhile` is an
exact implementation. -/
def matchesURLPattern (s : String) : Bool :=
  let cs := s.toList
  if cs.take 6 = "wss://".toList then
    let label := (cs.drop 6).takeWhile isAlnumDash
    let tail := (cs.drop 6).dropWhile isAlnumDash
    !label.isEmpty &&
      (tail = ".ai.ragwalla.com/v1".toList || tail = ".ai.ragwalla.com/v1/".toList)
  else false

/-- `baseURL.replace('https://', 'wss://')` guarded by the source's
`baseURL.startsWith('https://')` check: with the guard, replacing the
first occurrence is exactly a prefix replacement (implemented over the
character list so that it evaluates by kernel reduction). -/
def httpsToWss (baseURL : String) : String :=
  if baseURL.toList.take 8 = "https://".toList then
    "wss://" ++ String.mk (baseURL.toList.drop 8)
  else baseURL

/-- `wsURL.replace(/\/$/, '')`: drop one trailing slash. -/
def dropTrailingSlash (s : String) : String :=
  if s.toList.getLast? = some '/' then String.mk s.toList.dropLast else s

/-- `RagwallaWebSocket.validateAndSetWebSocketURL`: reject a missing
(empty, hence falsy) base URL, convert an `https://` prefix to `wss://`,
reject anything that fails the endpoint pattern, and store the URL with
its trailing slash removed.  A thrown `Error` is an `.error` result. -/
def validateAndSetWebSocketURL (baseURL : String) : Except String String :=
  if baseURL = "" then .error "WebSocket baseURL is required"
  else
    let wsURL := httpsToWss baseURL
    if matchesURLPattern wsURL then .ok (dropTrailingSlash wsURL)
    else
      .error ("WebSocket baseURL must follow the pattern: wss://example.ai.ragwalla.com/v1\nReceived: "
        ++ wsURL)

/-- The `RagwallaWebSocket` constructor.  It validates the endpoint first
(so an invalid endpoint throws before any other effect and no instance —
hence no connection attempt — can exist), then fills the option fields
with their `||` defaults. -/
def mkRagwallaWebSocket (config : WebSocketConfig) : Except String SessionState :=
  match validateAndSetWebSocketURL config.baseURL with
  | .error e => .error e
  | .ok url =>
    .ok { ws := none
          baseURL := url
          reconnectAttempts := jsOrInt config.reconnectAttempts 3
          reconnectDelay := jsOrInt config.reconnectDelay 1000
          currentAttempts := 0
          isManuallyDisconnected := false
          debug := jsOrBool config.debug
          continuationMode := if config.continuationMode = some "manual" then "manual" else "auto" }

/-- `RagwallaWebSocket.isConnected`: `this.ws?.readyState === 1`.  The
guard `!this.ws || this.ws.readyState !== 1` used by `sendMessage` and
`send` is its exact negation. -/
def isConnected (st : SessionState) : Bool :=
  match st.ws with
  | some rs => rs == 1
  | none => false

/-! ## Outbound operations -/

/-- The `ChatMessage` argument of `sendMessage`; `metadata` is `none`
when the caller omits the optional field. -/
structure ChatMessage where
  role : String
  content : String
  metadata : Option JsVal := none
  timestamp : Option String := none

/-- The flat outbound envelope built by `sendMessage`: `content`, `role`
and the encode-time timestamp at the top level, plus `metadata` exactly
when `message.metadata` is truthy (the conditional spread
`...(message.metadata && { metadata: message.metadata })`). -/
def sendMessagePayload (message : ChatMessage) (now : Nat) : JsVal :=
  .jobj ([("type", .jstr "message"),
          ("content", .jstr message.content),
          ("role", .jstr message.role),
          ("timestamp", .jstr (toISOString now))] ++
         (match message.metadata with
          | some md => if jsTruthy md then [("metadata", md)] else []
          | none => []))

/-- `RagwallaWebSocket.sendMessage`: throw synchronously unless a
transport handle exists with `readyState` 1 (`OPEN`); otherwise perform
exactly one transport write, the `JSON.stringify` of the flat envelope.
The returned list is the sequence of transport writes the call performs. -/
def sendMessage (st : SessionState) (message : ChatMessage) (now : Nat) :
    Except String (List String) :=
  if isConnected st then .ok [stringifyVal (sendMessagePayload message now)]
  else .error "WebSocket is not connected"

/-- `RagwallaWebSocket.send`: same precondition as `sendMessage`, one
write of the serialized payload. -/
def sendRaw (st : SessionState) (data : JsVal) : Except String (List String) :=
  if isConnected st then .ok [stringifyVal data]
  else .error "WebSocket is not connected"

/-- `RagwallaWebSocket.setContinuationMode`: normalize the mode
(`mode === 'manual' ? 'manual' : 'auto'`), update local state, and only
when currently connected send one `set_continuation_mode` control
message.  Returns the new state and the transport writes performed. -/
def setContinuationMode (st : SessionState) (mode : String) :
    SessionState × List String :=
  let normalized := if mode = "manual" then "manual" else "auto"
  let st1 := { st with continuationMode := normalized }
  if isConnected st1 then
    (st1, [stringifyVal (.jobj [("type", .jstr "set_continuation_mode"),
                                ("mode", .jstr normalized)])])
  else (st1, [])

/-! ## Channel URL construction (`connect`) -/

/-- Upper-case hexadecimal digit, as percent-encoding produces. -/
def hexDigitUpper (n : Nat) : Char :=
  Char.ofNat (if n < 10 then 48 + n else 55 + n)

/-- UTF-8 bytes of one character. -/
def utf8Bytes (c : Char) : List Nat :=
  let n := c.toNat
  if n < 128 then [n]
  else if n < 2048 then [192 + n / 64, 128 + n % 64]
  else if n < 65536 then [224 + n / 4096, 128 + n / 64 % 64, 128 + n % 64]
  else [240 + n / 262144, 128 + n / 4096 % 64, 128 + n / 64 % 64, 128 + n % 64]

/-- One character under `application/x-www-form-urlencoded` serialization
(what `URLSearchParams.toString` uses): ASCII alphanumerics and `*-._`
kept, space as `+`, everything else percent-encoded bytewise. -/
def formEncodeChar (c : Char) : String :=
  if c.isAlphanum || c == '*' || c == '-' || c == '.' || c == '_' then String.mk [c]
  else if c == ' ' then "+"
  else String.join ((utf8Bytes c).map fun b =>
    String.mk ['%', hexDigitUpper (b / 16), hexDigitUpper (b % 16)])

/-- `application/x-www-form-urlencoded` serialization of a string. -/
def formEncode (s : String) : String :=
  String.join (s.toList.map formEncodeChar)

/-- `URLSearchParams.toString()`: `k=v` pairs joined by `&`. -/
def serializeParams (ps : List (String × String)) : String :=
  String.intercalate "&" (ps.map fun p => formEncode p.1 ++ "=" ++ formEncode p.2)

/-- The query parameters `connect` builds: `token` and
`continuation_mode` always, `thread_id` only when a truthy (non-empty)
thread id was supplied (`if (threadId) params.set('thread_id', threadId)`). -/
def connectParams (token : String) (continuationMode : String)
    (threadId : Option String) : List (String × String) :=
  [("token", token), ("continuation_mode", continuationMode)] ++
  (match threadId with
   | some tid => if tid = "" then [] else [("thread_id", tid)]
   | none => [])

/-- The channel URL `connect` opens:
`` `${this.baseURL}/agents/${agentId}/${connectionId}?${params.toString()}` ``. -/
def connectURL (st : SessionState) (agentId connectionId token : String)
    (threadId : Option String) : String :=
  st.baseURL ++ "/agents/" ++ agentId ++ "/" ++ connectionId ++ "?" ++
    serializeParams (connectParams token st.continuationMode threadId)

/-! ## Inbound message handling -/

/-- `message.data || fallback`: JavaScript short-circuit `||` on wire
values. -/
def jsOrElse (v : JsVal) (fallback : JsVal) : JsVal :=
  if jsTruthy v then v else fallback

/-- `RagwallaWebSocket.handleMessage`: the switch on the envelope's
`type` tag, returning the `(eventName, payload)` emissions in order.
Every arm is translated from the source switch of the superset
implementation (`chunk` emits both a `chunk` and a compatibility
`message` event with `role` forced to `"assistant"`; unknown tags fall
through to `rawMessage`). -/
def handleMessage (m : JsVal) : List (String × JsVal) :=
  match jget m "type" with
  | .jstr "message" | .jstr "chat_message" =>
    [("message",
      jsOrElse (jget m "data")
        (.jobj [("content", jget m "content"), ("role", jget m "role"),
                ("threadId", jget m "threadId"), ("messageId", jget m "messageId")]))]
  | .jstr "chunk" =>
    [("chunk", .jobj [("content", jget m "content"), ("messageId", jget m "messageId")]),
     ("message", .jobj [("content", jget m "content"), ("role", .jstr "assistant"),
                        ("messageId", jget m "messageId")])]
  | .jstr "complete" =>
    [("complete", .jobj [("messageId", jget m "messageId")])]
  | .jstr "message_created" =>
    [("messageCreated", .jobj [("messageId", jget m "messageId"), ("role", jget m "role")])]
  | .jstr "thread_info" =>
    [("threadInfo", jsOrElse (jget m "data") m)]
  | .jstr "thread_history" =>
    [("threadHistory",
      .jobj [("threadId", jget m "threadId"),
             ("messages", jsOrElse (jget m "messages") (.jarr [])),
             ("messageCount", jsOrElse (jget m "messageCount") (.jnum 0))])]
  | .jstr "typing" =>
    [("typing", .jobj [("isTyping", jget m "isTyping")])]
  | .jstr "tool_use" =>
    [("toolUse", .jobj [("tools", jget m "tools")])]
  | .jstr "status" =>
    [("status",
      .jobj [("status", jget m "status"), ("message", jget m "message"),
             ("toolName", jget m "toolName"), ("toolCallId", jget m "toolCallId"),
             ("toolType", jget m "toolType"), ("serverName", jget m "serverName"),
             ("progress", jget m "progress"), ("total", jget m "total")])]
  | .jstr "token_usage" =>
    [("tokenUsage", jget m "data")]
  | .jstr "run_paused" =>
    [("runPaused", jsOrElse (jget m "data") m)]
  | .jstr "continuation_mode_updated" =>
    [("continuationModeUpdated", jsOrElse (jget m "data") m)]
  | .jstr "continue_run_result" =>
    [("continueRunResult", jsOrElse (jget m "data") m)]
  | .jstr "error" =>
    [("error", jsOrElse (jget m "data") (.jobj [("error", jget m "content")]))]
  | .jstr "connection_status" | .jstr "connected" =>
    [("connectionStatus", jsOrElse (jget m "data") m)]
  | .jstr "cf_agent_state" =>
    [("agentState", jsOrElse (jget m "data") m)]
  | _ => [("rawMessage", m)]

/-- The transport `message` handler installed by `connect`.  The
`JSON.parse` outcome for the raw text is passed in as `parsed` (`none`
models a parse throw).  On success the parsed envelope goes through
`handleMessage`; the `catch` arm emits exactly one `error` event
carrying the raw data.  The session state is returned unchanged in both
arms — the handler mutates no instance field. -/
def messageHandler (st : SessionState) (parsed : Option JsVal) (raw : String) :
    SessionState × List (String × JsVal) :=
  match parsed with
  | some m => (st, handleMessage m)
  | none =>
    (st, [("error", .jobj [("error", .jstr "Failed to parse message"),
                           ("data", .jstr raw)])])

/-! ## Event dispatch (`emit`)

A caller-registered listener is embedded as a function from the event
payload to `Except String (List String)`: an `.error` models the
listener throwing, an `.ok effects` models a normal return with the
listener's observable effects. -/

/-- The `console.error` line the `catch` arm of `emit` produces. -/
def listenerFailureLog (e : String) : String :=
  "Error in event listener: " ++ e

/-- The body of `RagwallaWebSocket.emit`'s `forEach`: each listener is
invoked inside its own `try`/`catch`, so a throwing listener contributes
a log entry and iteration continues.  Returns the concatenated
observable effects and the number of listeners invoked.  The result type
carries no `Except`: no listener exception escapes the dispatch. -/
def dispatchToListeners (listeners : List (JsVal → Except String (List String)))
    (payload : JsVal) : List String × Nat :=
  match listeners with
  | [] => ([], 0)
  | l :: rest =>
    let headEffects :=
      match l payload with
      | .ok effects => effects
      | .error e => [listenerFailureLog e]
    let tail := dispatchToListeners rest payload
    (headEffects ++ tail.1, tail.2 + 1)

/-- `RagwallaWebSocket.emit`: look up the listener set for the event and
dispatch to it; no registered set means no invocation. -/
def emitEvent (registry : List (String × List (JsVal → Except String (List String))))
    (event : String) (payload : JsVal) : List String × Nat :=
  match registry.lookup event with
  | some listeners => dispatchToListeners listeners payload
  | none => ([], 0)

/-! ## Unexpected closure and the reconnection path -/

/-- The reconnect that `closeHandler` schedules with `setTimeout`: the
delay and the arguments of the `this.connect(agentId, connectionId,
token)` call the timer will make. -/
structure ReconnectTask where
  delay : Int
  agentId : String
  connectionId : String
  token : String
  threadId : Option String
deriving Repr, DecidableEq

/-- The transport `close` handler installed by `connect`.  `agentId`,
`connectionId`, `token` and `origThreadId` are the arguments of the
enclosing `connect` call (captured by the closure).  It emits
`disconnected` with the defaulted code and reason and, when the session
was not manually disconnected and the attempt counter is below the
ceiling, schedules one reconnect after `reconnectDelay * currentAttempts`
milliseconds.  The scheduled call passes the original agent id,
connection id and token but no thread id — the source invokes
`this.connect(agentId, connectionId, token)` with three arguments. -/
def closeHandler (st : SessionState) (agentId connectionId token : String)
    (origThreadId : Option String) (code : JsVal) (reason : JsVal) :
    List (String × JsVal) × Option ReconnectTask :=
  let _ := origThreadId
  let emitted :=
    [("disconnected",
      JsVal.jobj [("code", jsOrElse code (.jnum 1000)),
                  ("reason", jsOrElse reason (.jstr "Connection closed"))])]
  if !st.isManuallyDisconnected && decide (st.currentAttempts < st.reconnectAttempts) then
    (emitted, some { delay := st.reconnectDelay * st.currentAttempts
                     agentId := agentId
                     connectionId := connectionId
                     token := token
                     threadId := none })
  else (emitted, none)

/-- The tracked state of the reconnection scenario: the session's
instance fields plus whether a reconnect-scheduled `connect()` promise is
pending with the source's `.catch` attached. -/
structure TraceState where
  sess : SessionState
  catchArmed : Bool
deriving Repr, DecidableEq

/-- The transport-level occurrences driving the reconnection scenario:
a `close` event, an `error` event (which also rejects the pending
`connect` promise, running the attached `catch`), and the elapse of the
scheduled reconnect timer. -/
inductive TransportSig where
  | closedSig (code : JsVal) (reason : JsVal)
  | errorSig (msg : String)
  | timerFire

/-- One step of the reconnection scenario.  Returns the next state, the
events emitted during the step, and the reconnect scheduled by the step
(if any).
* `closedSig` runs `closeHandler`.
* `timerFire` runs the scheduled callback: `this.currentAttempts++` then
  `this.connect(...)` with the `.catch` attached (armed).
* `errorSig` runs `errorHandler` (emitting `error`) and, because the
  error rejects the pending connect promise, the attached `catch`: when
  the counter has reached the ceiling it emits `reconnectFailed` carrying
  the attempt count. -/
def stepSig (agentId connectionId token : String) (origThreadId : Option String)
    (ts : TraceState) : TransportSig → TraceState × List (String × JsVal) × Option ReconnectTask
  | .closedSig code reason =>
    let r := closeHandler ts.sess agentId connectionId token origThreadId code reason
    (ts, r.1, r.2)
  | .timerFire =>
    ({ sess := { ts.sess with currentAttempts := ts.sess.currentAttempts + 1 },
       catchArmed := true }, [], none)
  | .errorSig msg =>
    let errEmit := ("error", JsVal.jobj [("error", .jstr msg)])
    if ts.catchArmed && decide (ts.sess.currentAttempts ≥ ts.sess.reconnectAttempts) then
      ({ ts with catchArmed := false },
       [errEmit, ("reconnectFailed", .jobj [("attempts", .jnum ts.sess.currentAttempts)])],
       none)
    else ({ ts with catchArmed := false }, [errEmit], none)

/-- Run a sequence of transport occurrences, collecting each step's
emissions and scheduled reconnect. -/
def runTrace (agentId connectionId token : String) (origThreadId : Option String)
    (ts : TraceState) : List TransportSig → List (List (String × JsVal) × Option ReconnectTask)
  | [] => []
  | sig :: rest =>
    let r := stepSig agentId connectionId token origThreadId ts sig
    (r.2.1, r.2.2) :: runTrace agentId connectionId token origThreadId r.1 rest

/-! ## The Node.js transport adapter (`createWebSocket`)

In a Node.js environment `createWebSocket` adapts the `ws` package to
the browser `addEventListener`/`removeEventListener` API.  JavaScript
function identity is modelled by a natural-number id; `attached` lists
the callbacks registered on the underlying `ws` emitter as
`(eventType, registered callback id, session handler id)`: for `open`
and `error` the adapter registers the session handler itself, while for
`message` and `close` it registers a freshly allocated anonymous wrapper
closure (a new function identity) that forwards to the session handler. -/
structure NodeWS where
  attached : List (String × Nat × Nat)
  nextWrapperId : Nat
deriving Repr, DecidableEq

/-- The adapter's `addEventListener`: `open`/`error` register the
listener directly (`ws.on('open', listener)`); `message`/`close` wrap it
(`ws.on('message', (data) => listener({ data }))`,
`ws.on('close', (code, reason) => listener({ code, reason }))`), so the
callback registered on the emitter is a fresh closure, not the listener.
Other event types fall off the `if`/`else` chain and register nothing. -/
def nodeAddEventListener (ws : NodeWS) (type : String) (listenerId : Nat) : NodeWS :=
  if type = "open" then
    { ws with attached := ws.attached ++ [("open", listenerId, listenerId)] }
  else if type = "message" then
    { attached := ws.attached ++ [("message", ws.nextWrapperId, listenerId)],
      nextWrapperId := ws.nextWrapperId + 1 }
  else if type = "close" then
    { attached := ws.attached ++ [("close", ws.nextWrapperId, listenerId)],
      nextWrapperId := ws.nextWrapperId + 1 }
  else if type = "error" then
    { ws with attached := ws.attached ++ [("error", listenerId, listenerId)] }
  else ws

/-- The adapter's `removeEventListener`: `ws.off(type, listener)`
detaches the emitter callbacks that are the very function passed in —
for `message` and `close` the emitter holds the anonymous wrapper, whose
identity differs from the listener's, so nothing matches. -/
def nodeRemoveEventListener (ws : NodeWS) (type : String) (listenerId : Nat) : NodeWS :=
  { ws with attached := ws.attached.filter fun h => !(h.1 == type && h.2.1 == listenerId) }

/-- Delivering a transport event of the given type: the session handler
ids that get invoked (each registered callback for the type forwards to
its session handler). -/
def nodeDeliver (ws : NodeWS) (type : String) : List Nat :=
  (ws.attached.filter fun h => h.1 == type).map fun h => h.2.2

/-- The four `addEventListener` calls `connect` makes on a fresh Node
transport.  Session handler identities: `openHandler = 0`,
`messageHandler = 1`, `closeHandler = 2`, `errorHandler = 3`; wrapper
identities are allocated from 100 (distinct from every session handler,
as fresh closures are). -/
def connectAttachNode : NodeWS :=
  nodeAddEventListener
    (nodeAddEventListener
      (nodeAddEventListener
        (nodeAddEventListener ⟨[], 100⟩ "open" 0)
        "message" 1)
      "close" 2)
    "error" 3

/-- The transport-level effect of `disconnect()`: it iterates the stored
`eventHandlers` map and calls `removeEventListener(event, handler)` for
each of the four handlers. -/
def disconnectDetachNode (ws : NodeWS) : NodeWS :=
  nodeRemoveEventListener
    (nodeRemoveEventListener
      (nodeRemoveEventListener
        (nodeRemoveEventListener ws "open" 0)
        "message" 1)
      "close" 2)
    "error" 3

/-! # Claims -/

/-- C1 auxiliary state: an open session. -/
def stOpenC1 : SessionState :=
  { ws := some 1, baseURL := "wss://example.ai.ragwalla.com/v1",
    reconnectAttempts := 3, reconnectDelay := 1000, currentAttempts := 0,
    isManuallyDisconnected := false, debug := false, continuationMode := "auto" }

/-- C1 auxiliary message. -/
def msgC1 : ChatMessage := { role := "user", content := "hi" }

/-- C1: a `sendMessage` call while the session is not Open (no transport
handle, or `readyState ≠ 1`) throws synchronously and performs no
transport write; while Open it performs exactly one write, the JSON text
of the flat envelope with top-level keys `type = "message"`, `content`,
`role` and an ISO-8601 encode-time timestamp, with `metadata` included
exactly when provided (truthy) and with no `data` wrapper key. -/
theorem sendMessage_flat_envelope (st : SessionState) (message : ChatMessage) (now : Nat) :
    (isConnected st = false → sendMessage st message now = .error "WebSocket is not connected")
  ∧ (isConnected st = true →
      sendMessage st message now = .ok [stringifyVal (sendMessagePayload message now)]
    ∧ jobjKeys (sendMessagePayload message now) =
        "type" :: "content" :: "role" :: "timestamp" ::
          (match message.metadata with
           | some md => if jsTruthy md then ["metadata"] else []
           | none => [])
    ∧ jget (sendMessagePayload message now) "type" = .jstr "message"
    ∧ jget (sendMessagePayload message now) "content" = .jstr message.content
    ∧ jget (sendMessagePayload message now) "role" = .jstr message.role
    ∧ jget (sendMessagePayload message now) "timestamp" = .jstr (toISOString now)
    ∧ isISO8601 (toISOString now) = true
    ∧ "data" ∉ jobjKeys (sendMessagePayload message now)) := by
  constructor
  · intro h
    simp [sendMessage, h]
  · intro h
    obtain ⟨role, content, metadata, tstamp⟩ := message
    refine ⟨by simp [sendMessage, h], ?_, ?_, ?_, ?_, ?_, toISOString_isISO8601 now, ?_⟩ <;>
      rcases metadata with _ | md <;>
        simp [sendMessagePayload, jobjKeys, jget, List.lookup] <;>
          first
            | rfl
            | (split <;> simp)

/-- C1 witness: with an open transport, `sendMessage` produces exactly
the flat wire text. -/
theorem sendMessage_flat_envelope_witness :
    isConnected stOpenC1 = true
  ∧ sendMessage stOpenC1 msgC1 0 = .ok [stringifyVal (sendMessagePayload msgC1 0)]
  ∧ stringifyVal (sendMessagePayload msgC1 0) =
      "\x7b\"type\":\"message\",\"content\":\"hi\",\"role\":\"user\",\"timestamp\":\"1970-01-01T00:00:00.000Z\"\x7d" :=
  ⟨rfl, ((sendMessage_flat_envelope stOpenC1 msgC1 0).2 rfl).1, by decide⟩

/-- C2 initial state: a session configured with `reconnectAttempts = 2`
and `reconnectDelay = 1000`, just after an unexpected transport closure
ended an open connection (attempt counter 0, not manually
disconnected). -/
def c2init : TraceState :=
  { sess := { ws := none, baseURL := "wss://example.ai.ragwalla.com/v1",
              reconnectAttempts := 2, reconnectDelay := 1000, currentAttempts := 0,
              isManuallyDisconnected := false, debug := false, continuationMode := "auto" },
    catchArmed := false }

/-- C2 scenario: three unexpected closures with both automatic reconnect
attempts failing.  A failing connect attempt surfaces as a transport
`error` (which rejects the pending connect promise) followed by the
transport `close` of that attempt, so the second and third closures are
each preceded by an `errorSig`. -/
def c2sigs : List TransportSig :=
  [.closedSig (.jnum 1006) (.jstr "abnormal"),
   .timerFire, .errorSig "connect failed",
   .closedSig (.jnum 1006) (.jstr "abnormal"),
   .timerFire, .errorSig "connect failed",
   .closedSig (.jnum 1006) (.jstr "abnormal")]

/-- C2: with `reconnectAttempts = 2` and `reconnectDelay = 1000`, the
first unexpected close schedules a reconnect after `0` ms, the second
after `1000` ms, and the third closure occurrence — the counter now at
the ceiling — emits `reconnectFailed` carrying `attempts: 2` (from the
rejection of the final scheduled `connect()`) while its close handler
schedules no further automatic retry: the only reconnects ever scheduled
in the whole trace are the two with delays `0` and `1000`. -/
theorem reconnect_backoff_scenario :
    (runTrace "agent-1" "conn-1" "tok" (some "th_9") c2init c2sigs).map
        (fun e => e.2.map ReconnectTask.delay) =
      [some 0, none, none, some 1000, none, none, none]
  ∧ (runTrace "agent-1" "conn-1" "tok" (some "th_9") c2init c2sigs).map Prod.fst =
      [[("disconnected", .jobj [("code", .jnum 1006), ("reason", .jstr "abnormal")])],
       [],
       [("error", .jobj [("error", .jstr "connect failed")])],
       [("disconnected", .jobj [("code", .jnum 1006), ("reason", .jstr "abnormal")])],
       [],
       [("error", .jobj [("error", .jstr "connect failed")]),
        ("reconnectFailed", .jobj [("attempts", .jnum 2)])],
       [("disconnected", .jobj [("code", .jnum 1006), ("reason", .jstr "abnormal")])]] :=
  ⟨rfl, rfl⟩

/-- C3 auxiliary: a queued inbound chunk envelope delivered by the Node
transport after `disconnect()`. -/
def lateChunkC3 : JsVal :=
  .jobj [("type", .jstr "chunk"), ("content", .jstr "late"), ("messageId", .jstr "m9")]

/-- C3 auxiliary: the session state right after `disconnect()` (flag set,
handle released). -/
def stDisconnectedC3 : SessionState :=
  { ws := none, baseURL := "wss://example.ai.ragwalla.com/v1",
    reconnectAttempts := 3, reconnectDelay := 1000, currentAttempts := 0,
    isManuallyDisconnected := true, debug := false, continuationMode := "auto" }

/-- C3 auxiliary: a listener the caller registered with `on('message', ...)`
before disconnecting (`disconnect()` does not clear `this.listeners`). -/
def lateListenerC3 : JsVal → Except String (List String) :=
  fun _ => .ok ["caller listener ran after disconnect"]

/-- C3 (code-bug evidence): in the Node.js adapter, `disconnect()` fails
to detach the `message` and `close` callbacks — `removeEventListener`
passes the session handler to `ws.off`, but `addEventListener` had
registered an anonymous wrapper around it — so a queued transport
`message` delivered after `disconnect()` still invokes the session's
`messageHandler` (identity 1) and a queued `close` still invokes
`closeHandler` (identity 2), while `open`/`error` are detached as the
claim requires.  The surviving `messageHandler` then turns the late
envelope into emissions, and `emit` still reaches the caller's
previously registered listener. -/
theorem node_disconnect_leaves_wrapped_handlers_attached :
    nodeDeliver (disconnectDetachNode connectAttachNode) "message" = [1]
  ∧ nodeDeliver (disconnectDetachNode connectAttachNode) "close" = [2]
  ∧ nodeDeliver (disconnectDetachNode connectAttachNode) "open" = []
  ∧ nodeDeliver (disconnectDetachNode connectAttachNode) "error" = []
  ∧ (messageHandler stDisconnectedC3 (some lateChunkC3) "").2.map Prod.fst =
      ["chunk", "message"]
  ∧ emitEvent [("message", [lateListenerC3])] "message"
      (.jobj [("content", .jstr "late"), ("role", .jstr "assistant"),
              ("messageId", .jstr "m9")]) =
      (["caller listener ran after disconnect"], 1) :=
  ⟨rfl, rfl, rfl, rfl, rfl, rfl⟩

/-- C4: every valid inbound envelope tagged `chunk` produces exactly a
`chunk` event (carrying the envelope's `content` and `messageId`)
followed by a compatibility `message` event whose `role` field is the
constant `"assistant"`. -/
theorem chunk_emits_chunk_and_assistant_message (m : JsVal)
    (h : jget m "type" = .jstr "chunk") :
    handleMessage m =
      [("chunk", .jobj [("content", jget m "content"), ("messageId", jget m "messageId")]),
       ("message", .jobj [("content", jget m "content"), ("role", .jstr "assistant"),
                          ("messageId", jget m "messageId")])] := by
  unfold handleMessage
  rw [h]
  rfl

/-- C4 auxiliary: a concrete chunk envelope. -/
def chunkEnvelopeC4 : JsVal :=
  .jobj [("type", .jstr "chunk"), ("content", .jstr "par"), ("messageId", .jstr "m1")]

/-- C4 witness: the concrete chunk envelope yields the two events. -/
theorem chunk_emits_chunk_and_assistant_message_witness :
    jget chunkEnvelopeC4 "type" = .jstr "chunk"
  ∧ handleMessage chunkEnvelopeC4 =
      [("chunk", .jobj [("content", .jstr "par"), ("messageId", .jstr "m1")]),
       ("message", .jobj [("content", .jstr "par"), ("role", .jstr "assistant"),
                          ("messageId", .jstr "m1")])] :=
  ⟨rfl, chunk_emits_chunk_and_assistant_message chunkEnvelopeC4 rfl⟩

/-- C5: any configured base endpoint that fails the required pattern
`wss://<label>.ai.ragwalla.com/v1` (after converting an `https://`
prefix to `wss://`) makes construction fail synchronously with a
configuration error, so no client instance — and hence no connection
attempt — can arise from a non-matching endpoint. -/
theorem invalid_endpoint_is_config_error (config : WebSocketConfig)
    (h : matchesURLPattern (httpsToWss config.baseURL) = false) :
    ∃ e, mkRagwallaWebSocket config = .error e := by
  unfold mkRagwallaWebSocket validateAndSetWebSocketURL
  by_cases hb : config.baseURL = ""
  · simp [hb]
  · simp [hb, h]

/-- C5 auxiliary: a config whose endpoint is outside the required
domain. -/
def badConfigC5 : WebSocketConfig := { baseURL := "wss://evil.example.com/v1" }

/-- C5 witness: the concrete non-matching endpoint is rejected. -/
theorem invalid_endpoint_is_config_error_witness :
    matchesURLPattern (httpsToWss badConfigC5.baseURL) = false
  ∧ ∃ e, mkRagwallaWebSocket badConfigC5 = .error e :=
  ⟨by decide, invalid_endpoint_is_config_error badConfigC5 (by decide)⟩

/-- C6: an inbound transport message whose text is not valid JSON (the
`JSON.parse` outcome is `none`) produces exactly one `error` event,
carrying the raw data, and leaves the session state — connection handle,
attempt counter, continuation mode and every other instance field —
unchanged. -/
theorem malformed_json_one_error_no_transition (st : SessionState) (raw : String) :
    messageHandler st none raw =
      (st, [("error", .jobj [("error", .jstr "Failed to parse message"),
                             ("data", .jstr raw)])])
  ∧ (messageHandler st none raw).1 = st
  ∧ (messageHandler st none raw).2.map Prod.fst = ["error"] :=
  ⟨rfl, rfl, rfl⟩

/-- Every listener in the set is invoked exactly once per dispatch. -/
theorem dispatchToListeners_count
    (listeners : List (JsVal → Except String (List String))) (payload : JsVal) :
    (dispatchToListeners listeners payload).2 = listeners.length := by
  induction listeners with
  | nil => rfl
  | cons l rest ih => simp [dispatchToListeners, ih]

/-- C7: when a listener throws during dispatch, the exception is caught
and logged (the `listenerFailureLog` entry), every remaining listener is
still invoked — the effect stream is the concatenation over all
listeners, before and after the failing one, and the invocation count is
the full set size — and the exception never propagates out of the
dispatch (the dispatch function is total: its result type carries no
exception). -/
theorem listener_exception_isolated
    (pre post : List (JsVal → Except String (List String)))
    (bad : JsVal → Except String (List String)) (payload : JsVal) (e : String)
    (h : bad payload = .error e) :
    (dispatchToListeners (pre ++ bad :: post) payload).1 =
      (dispatchToListeners pre payload).1 ++
        listenerFailureLog e :: (dispatchToListeners post payload).1
  ∧ (dispatchToListeners (pre ++ bad :: post) payload).2 =
      pre.length + 1 + post.length := by
  constructor
  · induction pre with
    | nil => simp [dispatchToListeners, h]
    | cons l rest ih => simp [dispatchToListeners, ih]
  · rw [dispatchToListeners_count]
    simp [List.length_append]
    omega

/-- C7 auxiliary: a listener that returns normally. -/
def goodListenerC7 : JsVal → Except String (List String) :=
  fun _ => .ok ["listener ran"]

/-- C7 auxiliary: a listener that throws. -/
def badListenerC7 : JsVal → Except String (List String) :=
  fun _ => .error "boom"

/-- C7 witness: a throwing listener between two normal ones is logged
and both neighbours still run. -/
theorem listener_exception_isolated_witness :
    badListenerC7 (JsVal.jstr "payload") = .error "boom"
  ∧ (dispatchToListeners [goodListenerC7, badListenerC7, goodListenerC7]
      (JsVal.jstr "payload")).1 =
      ["listener ran", "Error in event listener: boom", "listener ran"]
  ∧ (dispatchToListeners [goodListenerC7, badListenerC7, goodListenerC7]
      (JsVal.jstr "payload")).2 = 3 :=
  ⟨rfl,
   (listener_exception_isolated [goodListenerC7] [goodListenerC7] badListenerC7
     (JsVal.jstr "payload") "boom" rfl).1,
   (listener_exception_isolated [goodListenerC7] [goodListenerC7] badListenerC7
     (JsVal.jstr "payload") "boom" rfl).2⟩

/-- Updating the continuation mode leaves the transport handle — and so
the connectivity test — unchanged. -/
theorem isConnected_update_mode (st : SessionState) (m : String) :
    isConnected { st with continuationMode := m } = isConnected st := rfl

/-- C8: `setContinuationMode("manual")` always records the new mode in
local state; while Open it performs exactly one outbound control write
carrying the new mode, while not Open it performs zero writes and the
updated local mode makes the next connect's query parameters carry
`continuation_mode=manual` (and `connectURL` serializes exactly those
parameters into the channel URL). -/
theorem setContinuationMode_manual_behavior (st : SessionState) (token : String) :
    (setContinuationMode st "manual").1.continuationMode = "manual"
  ∧ (isConnected st = true →
      (setContinuationMode st "manual").2 =
        [stringifyVal (.jobj [("type", .jstr "set_continuation_mode"),
                              ("mode", .jstr "manual")])])
  ∧ (isConnected st = false →
      (setContinuationMode st "manual").2 = []
    ∧ connectParams token (setContinuationMode st "manual").1.continuationMode none =
        [("token", token), ("continuation_mode", "manual")]) := by
  refine ⟨?_, fun h => ?_, fun h => ⟨?_, ?_⟩⟩
  · cases hc : isConnected { st with continuationMode := "manual" } <;>
      simp [setContinuationMode, hc]
  · simp [setContinuationMode, isConnected_update_mode, h]
  · simp [setContinuationMode, isConnected_update_mode, h]
  · simp only [setContinuationMode]
    rw [if_neg (by simp [isConnected_update_mode, h])]
    simp [connectParams]

/-- C8 auxiliary: a session with an open transport. -/
def stOpenC8 : SessionState :=
  { ws := some 1, baseURL := "wss://example.ai.ragwalla.com/v1",
    reconnectAttempts := 3, reconnectDelay := 1000, currentAttempts := 0,
    isManuallyDisconnected := false, debug := false, continuationMode := "auto" }

/-- C8 auxiliary: a session whose transport is gone (not Open). -/
def stClosedC8 : SessionState :=
  { ws := none, baseURL := "wss://example.ai.ragwalla.com/v1",
    reconnectAttempts := 3, reconnectDelay := 1000, currentAttempts := 0,
    isManuallyDisconnected := false, debug := false, continuationMode := "auto" }

/-- C8 witness: while Open, one concrete control write; while not Open,
no write, and the next connect URL concretely embeds
`continuation_mode=manual`. -/
theorem setContinuationMode_manual_behavior_witness :
    isConnected stOpenC8 = true
  ∧ (setContinuationMode stOpenC8 "manual").2 =
      ["\x7b\"type\":\"set_continuation_mode\",\"mode\":\"manual\"\x7d"]
  ∧ isConnected stClosedC8 = false
  ∧ (setContinuationMode stClosedC8 "manual").2 = []
  ∧ connectParams "tok" (setContinuationMode stClosedC8 "manual").1.continuationMode none =
      [("token", "tok"), ("continuation_mode", "manual")]
  ∧ connectURL (setContinuationMode stClosedC8 "manual").1 "agent-1" "conn-1" "tok" none =
      "wss://example.ai.ragwalla.com/v1/agents/agent-1/conn-1?token=tok&continuation_mode=manual" :=
  ⟨rfl,
   (setContinuationMode_manual_behavior stOpenC8 "tok").2.1 rfl,
   rfl,
   ((setContinuationMode_manual_behavior stClosedC8 "tok").2.2 rfl).1,
   ((setContinuationMode_manual_behavior stClosedC8 "tok").2.2 rfl).2,
   by decide⟩

/-- C9: every automatic reconnect that `closeHandler` schedules
re-invokes `connect` with the original agent id, connection id and
bearer token but with no thread id — whatever thread id the original
`connect` call had captured — so the rebuilt channel URL's query
parameters contain no `thread_id` entry. -/
theorem reconnect_omits_thread_id (st : SessionState)
    (agentId connectionId token : String) (origThreadId : Option String)
    (code reason : JsVal) (task : ReconnectTask)
    (h : (closeHandler st agentId connectionId token origThreadId code reason).2 = some task) :
    task.threadId = none
  ∧ task.agentId = agentId ∧ task.connectionId = connectionId ∧ task.token = token
  ∧ (connectParams task.token st.continuationMode task.threadId).lookup "thread_id" = none := by
  unfold closeHandler at h
  split at h
  · simp only [Option.some.injEq] at h
    subst h
    refine ⟨rfl, rfl, rfl, rfl, ?_⟩
    simp [connectParams, List.lookup]
  · exact absurd h (by simp)

/-- C9 auxiliary: a reconnect-eligible session state. -/
def stC9 : SessionState :=
  { ws := none, baseURL := "wss://example.ai.ragwalla.com/v1",
    reconnectAttempts := 3, reconnectDelay := 1000, currentAttempts := 0,
    isManuallyDisconnected := false, debug := false, continuationMode := "auto" }

/-- C9 auxiliary: the task scheduled by the concrete unexpected close. -/
def taskC9 : ReconnectTask :=
  { delay := 0, agentId := "agent-1", connectionId := "conn-1", token := "tok",
    threadId := none }

/-- C9 witness: an unexpected close of a session whose `connect` had
supplied `thread_id = "th_9"` schedules a reconnect carrying no thread
id. -/
theorem reconnect_omits_thread_id_witness :
    (closeHandler stC9 "agent-1" "conn-1" "tok" (some "th_9")
        (.jnum 1006) (.jstr "gone")).2 = some taskC9
  ∧ taskC9.threadId = none
  ∧ (connectParams taskC9.token stC9.continuationMode taskC9.threadId).lookup "thread_id" =
      none :=
  ⟨rfl,
   (reconnect_omits_thread_id stC9 "agent-1" "conn-1" "tok" (some "th_9")
     (.jnum 1006) (.jstr "gone") taskC9 rfl).1,
   (reconnect_omits_thread_id stC9 "agent-1" "conn-1" "tok" (some "th_9")
     (.jnum 1006) (.jstr "gone") taskC9 rfl).2.2.2.2⟩

/-- C10: passing the falsy values `reconnectAttempts: 0` or
`reconnectDelay: 0` makes the constructor fall back to the defaults 3
and 1000 (the `||` defaulting), so these options cannot disable
automatic reconnection or zero the back-off base. -/
theorem falsy_reconnect_options_use_defaults (config : WebSocketConfig)
    (st : SessionState)
    (hA : config.reconnectAttempts = some 0) (hD : config.reconnectDelay = some 0)
    (hok : mkRagwallaWebSocket config = .ok st) :
    st.reconnectAttempts = 3 ∧ st.reconnectDelay = 1000 := by
  unfold mkRagwallaWebSocket at hok
  cases hval : validateAndSetWebSocketURL config.baseURL with
  | error e => rw [hval] at hok; exact absurd hok (by simp)
  | ok url =>
    rw [hval] at hok
    simp only [Except.ok.injEq] at hok
    subst hok
    simp [jsOrInt, hA, hD]

/-- C10 auxiliary: a config passing the falsy zeros. -/
def cfgC10 : WebSocketConfig :=
  { baseURL := "wss://example.ai.ragwalla.com/v1",
    reconnectAttempts := some 0, reconnectDelay := some 0 }

/-- C10 auxiliary: the state the constructor builds from `cfgC10`. -/
def stC10 : SessionState :=
  { ws := none, baseURL := "wss://example.ai.ragwalla.com/v1",
    reconnectAttempts := 3, reconnectDelay := 1000, currentAttempts := 0,
    isManuallyDisconnected := false, debug := false, continuationMode := "auto" }

/-- C10 witness: the concrete zero-valued config constructs successfully
with the defaults 3 and 1000. -/
theorem falsy_reconnect_options_use_defaults_witness :
    cfgC10.reconnectAttempts = some 0
  ∧ cfgC10.reconnectDelay = some 0
  ∧ mkRagwallaWebSocket cfgC10 = .ok stC10
  ∧ stC10.reconnectAttempts = 3 ∧ stC10.reconnectDelay = 1000 :=
  ⟨rfl, rfl, rfl,
   (falsy_reconnect_options_use_defaults cfgC10 stC10 rfl rfl rfl).1,
   (falsy_reconnect_options_use_defaults cfgC10 stC10 rfl rfl rfl).2⟩
